import Mathlib

/-!
Verification development for `rejected/utils.py`: startup/shutdown helpers of
the rejected consumer framework.  The Python module is shallowly embedded:

* dictionaries become association lists (`aLookup` / `aInsert` / `aErase`
  mirror `d[k]`, `d[k] = v`, `del d[k]`);
* process-level effects of `daemonize` (forks, pid-file write, chown,
  detach, effective-uid switch) become an explicit `DaemonOutcome` record
  describing the surviving grandchild process and the artifacts produced,
  with pids supplied deterministically by a `DaemonEnv`;
* Python exceptions become `Except PyErr`;
* calls to the `logging` module become `LogEntry` values appended to a trace
  (the model keeps the distinguishing prefix of each message, not the full
  `%`-interpolated rendering of runtime values such as frame objects).
-/

set_option autoImplicit false

namespace Rejected

/-! ## Association lists (Python `dict` views) -/

/-- Lookup in an association list: the value at the first matching key,
mirroring Python `d.get(k)` / `d[k]`. -/
def aLookup {κ α : Type} [DecidableEq κ] : List (κ × α) → κ → Option α
  | [], _ => none
  | (k', v) :: t, k => if k' = k then some v else aLookup t k

/-- `d[k] = v`: replace the first binding of `k`, or append a new one. -/
def aInsert {κ α : Type} [DecidableEq κ] : List (κ × α) → κ → α → List (κ × α)
  | [], k, v => [(k, v)]
  | (k', v') :: t, k, v => if k' = k then (k, v) :: t else (k', v') :: aInsert t k v

/-- `del d[k]`: remove every binding of `k`. -/
def aErase {κ α : Type} [DecidableEq κ] : List (κ × α) → κ → List (κ × α)
  | [], _ => []
  | (k', v') :: t, k => if k' = k then aErase t k else (k', v') :: aErase t k

theorem aLookup_aInsert_self {κ α : Type} [DecidableEq κ] (m : List (κ × α)) (k : κ) (v : α) :
    aLookup (aInsert m k v) k = some v := by
  induction m with
  | nil => simp [aInsert, aLookup]
  | cons hd t ih =>
    obtain ⟨k', v'⟩ := hd
    by_cases h : k' = k <;> simp [aInsert, aLookup, h, ih]

theorem aLookup_aInsert_ne {κ α : Type} [DecidableEq κ] (m : List (κ × α)) (k j : κ) (v : α)
    (h : j ≠ k) : aLookup (aInsert m k v) j = aLookup m j := by
  induction m with
  | nil => simp [aInsert, aLookup, Ne.symm h]
  | cons hd t ih =>
    obtain ⟨k', v'⟩ := hd
    by_cases hk : k' = k
    · subst hk
      simp [aInsert, aLookup, Ne.symm h]
    · simp only [aInsert, if_neg hk, aLookup]
      by_cases hj : k' = j <;> simp [hj, ih]

theorem aLookup_aErase_self {κ α : Type} [DecidableEq κ] (m : List (κ × α)) (k : κ) :
    aLookup (aErase m k) k = none := by
  induction m with
  | nil => simp [aErase, aLookup]
  | cons hd t ih =>
    obtain ⟨k', v'⟩ := hd
    by_cases h : k' = k <;> simp [aErase, aLookup, h, ih]

theorem aLookup_aErase_ne {κ α : Type} [DecidableEq κ] (m : List (κ × α)) (k j : κ)
    (h : j ≠ k) : aLookup (aErase m k) j = aLookup m j := by
  induction m with
  | nil => simp [aErase, aLookup]
  | cons hd t ih =>
    obtain ⟨k', v'⟩ := hd
    by_cases hk : k' = k
    · subst hk
      simp [aErase, aLookup, Ne.symm h, ih]
    · simp only [aErase, if_neg hk, aLookup]
      by_cases hj : k' = j <;> simp [hj, ih]

/-! ## Python-level error and logging vocabulary -/

instance exceptDecEq {ε α : Type} [DecidableEq ε] [DecidableEq α] : DecidableEq (Except ε α)
  | Except.error e, Except.error f =>
    if h : e = f then Decidable.isTrue (by rw [h])
    else Decidable.isFalse (by intro hh; cases hh; exact h rfl)
  | Except.error _, Except.ok _ => Decidable.isFalse (by intro hh; cases hh)
  | Except.ok _, Except.error _ => Decidable.isFalse (by intro hh; cases hh)
  | Except.ok a, Except.ok b =>
    if h : a = b then Decidable.isTrue (by rw [h])
    else Decidable.isFalse (by intro hh; cases hh; exact h rfl)

/-- Exceptions the embedded fragments can raise. -/
inductive PyErr where
  | keyError (msg : String)
  | typeError (msg : String)
deriving DecidableEq, Repr

/-- Levels of the Python `logging` module used by `utils.py`. -/
inductive LogLevel where
  | debug
  | info
  | warning
  | error
  | critical
deriving DecidableEq, Repr

/-- One emitted log record. -/
structure LogEntry where
  lvl : LogLevel
  msg : String
deriving DecidableEq, Repr

/-! ## Identity probe and path helpers

`application_name()` is `path.split(sys.argv[0])[1]`: the part of `argv[0]`
after the last slash.  `path.normpath` is `posixpath.normpath`, reimplemented
here over character lists so that everything reduces in the kernel. -/

/-- Split a character list at every occurrence of `c` (Python `str.split(c)`:
`n` separators yield `n+1` pieces, possibly empty). -/
def splitOnChar (c : Char) : List Char → List (List Char)
  | [] => [[]]
  | x :: t =>
    let r := splitOnChar c t
    if x = c then [] :: r
    else
      match r with
      | h :: t' => (x :: h) :: t'
      | [] => [[x]]

/-- Join components with a `/` separator (Python `'/'.join`). -/
def joinSlash : List (List Char) → List Char
  | [] => []
  | [x] => x
  | x :: t => x ++ '/' :: joinSlash t

/-- `posixpath.normpath`: collapse empty and `.` components, resolve `..`
where possible, preserve one or exactly two leading slashes. -/
def normpath (p : String) : String :=
  if p.data = [] then "." else
  let slashes : Nat :=
    match p.data with
    | '/' :: '/' :: '/' :: _ => 1
    | '/' :: '/' :: _ => 2
    | '/' :: _ => 1
    | _ => 0
  let comps := splitOnChar '/' p.data
  let newComps := comps.foldl (fun acc comp =>
    if comp = [] ∨ comp = ['.'] then acc
    else if comp ≠ ['.', '.'] ∨ (slashes = 0 ∧ acc = []) ∨ acc.getLast? = some ['.', '.'] then
      acc ++ [comp]
    else if acc ≠ [] then acc.dropLast
    else acc) []
  let res := List.replicate slashes '/' ++ joinSlash newComps
  if res = [] then "." else String.mk res

/-- `application_name()`: `path.split(sys.argv[0])[1]`, the substring of
`argv[0]` after its last `/` (the whole string when there is no `/`).
The model takes `argv[0]` as an argument. -/
def application_name (argv0 : String) : String :=
  String.mk ((splitOnChar '/' argv0.data).getLastD argv0.data)

/-! ## Signal dispatcher

`setup_signals` registers `signal_handler` for exactly SIGTERM, SIGUSR1 and
SIGHUP.  `_SIGNALS` maps those three signal numbers to their display names.
The handler reads the two module-level callback slots `_SHUTDOWN_HANDLER`
and `_REHASH_HANDLER`; the embedding gathers the slots and the emitted log
into a `SignalState` and reports which callbacks the handler invoked as a
list of `HandlerAction`s (the callbacks themselves stay abstract in `α`). -/

/-- `signal.SIGTERM` on Linux. -/
def SIGTERM : Nat := 15

/-- `signal.SIGHUP` on Linux. -/
def SIGHUP : Nat := 1

/-- `signal.SIGUSR1` on Linux. -/
def SIGUSR1 : Nat := 10

/-- `signal.SIGINT` on Linux (never registered by `setup_signals`). -/
def SIGINT : Nat := 2

/-- `_SIGNALS`: display names for the three registered signals. -/
def SIGNALS : List (Nat × String) :=
  [(SIGTERM, "SIGTERM"), (SIGHUP, "SIGHUP"), (SIGUSR1, "SIGUSR1")]

/-- The module-level callback slots plus the log they write to.  `α` is the
type of the registered callables (a Python function object is always truthy,
so `Option.isSome` models the `if ... and _SHUTDOWN_HANDLER` truthiness
tests faithfully). -/
structure SignalState (α : Type) where
  shutdownSlot : Option α
  rehashSlot : Option α
  log : List LogEntry
deriving DecidableEq, Repr

/-- What the handler did with the interrupted process: which user callback
it invoked, or the `show_frames` stack dump. -/
inductive HandlerAction (α : Type) where
  | callShutdown (cb : α)
  | callRehash (cb : α)
  | showFrames
deriving DecidableEq, Repr

/-- `signal_handler(signum, frame)`.  Mirrors the source line by line: the
first statement logs `"Signal received: %s, %r" % (_SIGNALS[signum], frame)`,
so an unregistered `signum` raises `KeyError` before anything else runs;
then the `if/elif` chain dispatches to the shutdown slot (SIGTERM), the
rehash slot (SIGHUP), `show_frames` (SIGUSR1), or the final log line.
The `frame` argument is opaque and only fed to the first log record. -/
def signal_handler {α : Type} (st : SignalState α) (signum : Nat) (frame : Nat) :
    Except PyErr (SignalState α × List (HandlerAction α)) :=
  match aLookup SIGNALS signum with
  | none => Except.error (PyErr.keyError (Nat.repr signum))
  | some nm =>
    let st1 : SignalState α :=
      { st with log := st.log ++ [⟨LogLevel.info, "Signal received: " ++ nm ++ ", frame " ++ Nat.repr frame⟩] }
    match (if signum = SIGTERM then st1.shutdownSlot else none) with
    | some cb =>
      Except.ok ({ st1 with log := st1.log ++ [⟨LogLevel.debug, "Calling shutdown handler"⟩] },
                 [HandlerAction.callShutdown cb])
    | none =>
      match (if signum = SIGHUP then st1.rehashSlot else none) with
      | some cb => Except.ok (st1, [HandlerAction.callRehash cb])
      | none =>
        if signum = SIGUSR1 then
          Except.ok (st1, [HandlerAction.showFrames])
        else
          Except.ok ({ st1 with
                       log := st1.log ++ [⟨LogLevel.info, "No valid signal handler defined: " ++ nm⟩] }, [])

/-- `rehash_handler(handler)`: overwrite the module-level `_REHASH_HANDLER`
slot (no check that a previous handler existed). -/
def rehash_handler {α : Type} (st : SignalState α) (handler : α) : SignalState α :=
  { st with rehashSlot := some handler,
            log := st.log ++ [⟨LogLevel.debug, "Rehash handler set"⟩] }

/-- `shutdown_handler(handler)`: overwrite the module-level
`_SHUTDOWN_HANDLER` slot (no check that a previous handler existed). -/
def shutdown_handler {α : Type} (st : SignalState α) (handler : α) : SignalState α :=
  { st with shutdownSlot := some handler,
            log := st.log ++ [⟨LogLevel.debug, "Shutdown handler set"⟩] }

/-- Module-load state: both callback slots unset, nothing logged. -/
def initialSignalState : SignalState Nat := ⟨none, none, []⟩

/-! ## Daemonizer

`daemonize(pidfile=None, user=None)` double-forks; only the grandchild
returns.  The embedding fixes the nondeterministic OS inputs in a
`DaemonEnv` (pid handed out by the second `fork`, the `pwd` database, the
current effective uid, which uids `os.seteuid` would accept) and describes
the run by the state of the surviving grandchild plus the filesystem
artifacts written by the intermediate process. -/

/-- `_DEFAULT_GID = 1`: group used when chowning the pid file. -/
def DEFAULT_GID : Int := 1

/-- OS inputs to one `daemonize` call. -/
structure DaemonEnv where
  /-- Whether `import pwd` succeeded (`_SUPPORTS_PWD`). -/
  supportsPwd : Bool
  /-- The user database: name to uid (`pwd.getpwnam(name).pw_uid`). -/
  pwdDb : List (String × Nat)
  /-- `sys.argv[0]`, input of `application_name()`. -/
  argv0 : String
  /-- Pid of the child of the first fork (the intermediate process). -/
  childPid : Nat
  /-- Pid of the child of the second fork: the surviving grandchild. -/
  grandchildPid : Nat
  /-- `os.geteuid()` at entry. -/
  euid : Int
  /-- Uids `os.seteuid` would accept; outside this list it raises `OSError`. -/
  allowedEuids : List Int
  /-- Filesystem before the call (path to content). -/
  fs0 : List (String × String)
  /-- File ownership before the call (path to uid and gid). -/
  owners0 : List (String × Int × Int)
deriving DecidableEq, Repr

/-- State of the surviving grandchild and the artifacts of the call. -/
structure DaemonOutcome where
  /-- Filesystem after the call. -/
  fs : List (String × String)
  /-- File ownership after the call. -/
  owners : List (String × Int × Int)
  /-- Working directory of the grandchild (`os.chdir`). -/
  cwd : String
  /-- File-creation mask of the grandchild (`os.umask(0)`). -/
  umask : Nat
  /-- Whether `os.setsid()` made the grandchild a session leader. -/
  sessionLeader : Bool
  /-- Whether stdin/stdout/stderr were re-pointed at `/dev/null`. -/
  streamsToDevNull : Bool
  /-- Effective uid of the grandchild after the optional switch. -/
  euid : Int
  /-- Log records emitted along the way. -/
  log : List LogEntry
  /-- The value `daemonize` returned (`return True`). -/
  returned : Bool
deriving DecidableEq, Repr

/-- Python truthiness of the `user` argument (`None` and `''` are falsy). -/
def userTruthy : Option String → Bool
  | some s => s ≠ ""
  | none => false

/-- The pid-file path the intermediate process writes to:
`pidfile or path.normpath('/tmp/%s-%i.pid' % (application_name(), pid))`,
where `pid` is the grandchild's pid returned by the second `fork`. -/
def resolved_pidfile_path (env : DaemonEnv) (pidfile : Option String) : String :=
  let defaultPath :=
    normpath ("/tmp/" ++ application_name env.argv0 ++ "-" ++ Nat.repr env.grandchildPid ++ ".pid")
  match pidfile with
  | some p => if p ≠ "" then p else defaultPath
  | none => defaultPath

/-- `daemonize(pidfile, user)`.  Step by step from the source:
stdout/stderr flush (no observable effect here); uid resolution (only when
`_SUPPORTS_PWD and user`; an unknown name raises `pwd`'s `KeyError`);
first fork — the parent exits 0; second fork — the intermediate process
resolves the pid-file path, writes the grandchild's pid as `'%i\n'`,
fchowns the file to `(uid, _DEFAULT_GID)` when a uid was resolved, and
exits 0; the grandchild chdirs to `/`, clears its umask, starts a new
session, redirects the three standard streams to `/dev/null`, logs the
`user` request if one was given, and switches its effective uid only when
a uid was resolved and differs from the current one — an `OSError` from
`os.seteuid` is caught and logged, never raised.  Returns `True`. -/
def daemonize (env : DaemonEnv) (pidfile : Option String) (user : Option String) :
    Except PyErr DaemonOutcome :=
  let uidE : Except PyErr Int :=
    if env.supportsPwd && userTruthy user then
      match aLookup env.pwdDb (user.getD "") with
      | some u => Except.ok (Int.ofNat u)
      | none =>
        Except.error (PyErr.keyError ("getpwnam(): name not found: " ++ user.getD ""))
    else Except.ok (-1)
  match uidE with
  | Except.error e => Except.error e
  | Except.ok uid =>
    let pidfilePath := resolved_pidfile_path env pidfile
    let fs1 := aInsert env.fs0 pidfilePath (Nat.repr env.grandchildPid ++ "\n")
    let owners1 :=
      if uid > -1 then aInsert env.owners0 pidfilePath (uid, DEFAULT_GID) else env.owners0
    let log1 : List LogEntry :=
      if userTruthy user then
        [⟨LogLevel.info, "Changing the running user to " ++ user.getD ""⟩]
      else []
    let euidLog : Int × List LogEntry :=
      if uid > -1 ∧ uid ≠ env.euid then
        if uid ∈ env.allowedEuids then
          (uid, log1 ++ [⟨LogLevel.debug, "User changed to " ++ user.getD ""⟩])
        else
          (env.euid, log1 ++ [⟨LogLevel.error, "Could not set the user"⟩])
      else (env.euid, log1)
    Except.ok { fs := fs1
                owners := owners1
                cwd := normpath "/"
                umask := 0
                sessionLeader := true
                streamsToDevNull := true
                euid := euidLog.1
                log := euidLog.2
                returned := true }

/-! ## Logging backend builder

`setup_logging(config, debug=False)` mutates the caller's config dict in
place (debug override, numeric level), calls `logging.basicConfig(**config)`
(Python 2 semantics: unknown keyword arguments are ignored), applies the
per-logger overrides, and optionally swaps in a syslog handler.  Config
values are `CVal`s; in-place mutation is modelled by returning the mapping
the caller's dict holds after the call. -/

/-- A value in the logging configuration mapping. -/
inductive CVal where
  /-- A string value. -/
  | str (s : String)
  /-- A numeric value (e.g. the level after conversion). -/
  | num (n : Nat)
  /-- A nested string-to-string block (the `syslog` sub-dict). -/
  | dict (d : List (String × String))
  /-- The `loggers` list: each element a `[name, level]` pair or a name. -/
  | specs (l : List (String × Option String))
deriving DecidableEq, Repr

/-- The logging configuration mapping (a Python dict). -/
abbrev Config := List (String × CVal)

/-- `LEVELS`: level-name to numeric `logging` constant. -/
def LEVELS : List (String × Nat) :=
  [("debug", 10), ("info", 20), ("warning", 30), ("error", 40), ("critical", 50)]

/-- `logging.NOTSET`. -/
def NOTSET : Nat := 0

/-- `LEVELS.get(v, logging.NOTSET)`: only a string key can hit the table;
any other value (e.g. an already-numeric level) falls to `NOTSET`. -/
def levelsGet : CVal → Nat
  | CVal.str s => (aLookup LEVELS s).getD NOTSET
  | _ => NOTSET

/-- The in-place mutation prefix of `setup_logging` (source lines 224-237):
when `debug` is set, force `config['level'] = 'debug'` and delete any
`filename` entry; then unconditionally read `config['level']` (a missing
key raises `KeyError`) and overwrite it with the numeric constant.
The returned mapping is what the caller's dict holds afterwards. -/
def effective_config (config : Config) (debug : Bool) : Except PyErr Config :=
  let c1 :=
    if debug then
      let c := aInsert config "level" (CVal.str "debug")
      if (aLookup c "filename").isSome then aErase c "filename" else c
    else config
  match aLookup c1 "level" with
  | none => Except.error (PyErr.keyError "level")
  | some v => Except.ok (aInsert c1 "level" (CVal.num (levelsGet v)))

/-- A handler attached to the root logger. -/
inductive Handler where
  /-- `logging.StreamHandler` on the default stream. -/
  | stream
  /-- `logging.FileHandler` (created by `basicConfig` when `filename` is
  given). -/
  | file (path : String)
  /-- `logging.handlers.SysLogHandler`. -/
  | syslog (address : String) (facility : Nat)
deriving DecidableEq, Repr

/-- `isinstance(h, logging.StreamHandler)`: `FileHandler` is a subclass of
`StreamHandler`; `SysLogHandler` is not. -/
def isStreamHandlerInstance : Handler → Bool
  | Handler.stream => true
  | Handler.file _ => true
  | Handler.syslog _ _ => false

/-- The state of the `logging` module the builder manipulates. -/
structure LoggingState where
  /-- Handlers attached to the root logger, in attachment order. -/
  rootHandlers : List Handler
  /-- The root logger's level. -/
  rootLevel : Nat
  /-- Levels of individually configured loggers. -/
  loggerLevels : List (String × Nat)
  /-- The format string the root formatter was built from. -/
  formatUsed : String
  /-- Records emitted through the module during setup. -/
  log : List LogEntry
deriving DecidableEq, Repr

/-- Python 2's `%`-style `BASIC_FORMAT`. -/
def BASIC_FORMAT : String := "%(levelname)s:%(name)s:%(message)s"

/-- `logging.basicConfig(**config)` on a root logger with no handlers
(Python 2: unknown keyword arguments are ignored): a `FileHandler` when a
truthy `filename` is present, else a `StreamHandler`; the `format` and
`level` keywords are honoured (root default `WARNING = 30` otherwise). -/
def basicConfig (c : Config) : LoggingState :=
  let hdlr : Handler :=
    match aLookup c "filename" with
    | some (CVal.str f) => if f ≠ "" then Handler.file f else Handler.stream
    | _ => Handler.stream
  let fmt : String :=
    match aLookup c "format" with
    | some (CVal.str s) => s
    | _ => BASIC_FORMAT
  let lvl : Nat :=
    match aLookup c "level" with
    | some (CVal.num n) => n
    | _ => 30
  { rootHandlers := [hdlr], rootLevel := lvl, loggerLevels := [], formatUsed := fmt, log := [] }

/-- `set_logger_level(name, level)`: `logging.getLogger(name).setLevel(level)`. -/
def set_logger_level (st : LoggingState) (nm : String) (lvl : Nat) : LoggingState :=
  { st with loggerLevels := aInsert st.loggerLevels nm lvl }

/-- `set_logging_level_for_loggers(loggers, level)`: nothing on a falsy
argument; otherwise a `[name, level-string]` pair sets that level (through
`LEVELS`, default `NOTSET`) and a bare name sets the passed default. -/
def set_logging_level_for_loggers (st : LoggingState) (ls : Option CVal) (lvl : Nat) :
    LoggingState :=
  match ls with
  | some (CVal.specs l) =>
    l.foldl (fun s spec =>
      match spec with
      | (nm, some lv) => set_logger_level s nm ((aLookup LEVELS lv).getD NOTSET)
      | (nm, none) => set_logger_level s nm lvl) st
  | _ => st

/-- The source's search for the first root handler that is an instance of
`logging.StreamHandler`. -/
def findStreamHandler : List Handler → Option Handler
  | [] => none
  | h :: t => if isStreamHandlerInstance h then some h else findStreamHandler t

/-- `removeHandler`: drop the one identified handler object. -/
def removeHandlerOnce : List Handler → Handler → List Handler
  | [], _ => []
  | h :: t, x => if h = x then t else h :: removeHandlerOnce t x

/-- `handlers.SysLogHandler.facility_names`. -/
def facility_names : List (String × Nat) :=
  [("auth", 4), ("authpriv", 10), ("cron", 9), ("daemon", 3), ("ftp", 11), ("kern", 0),
   ("lpr", 6), ("mail", 2), ("news", 7), ("security", 4), ("syslog", 5), ("user", 1),
   ("uucp", 8), ("local0", 16), ("local1", 17), ("local2", 18), ("local3", 19),
   ("local4", 20), ("local5", 21), ("local6", 22), ("local7", 23)]

/-- `setup_logging(config, debug=False)`.  After the in-place mutation
(`effective_config`) it calls `basicConfig`, applies the `loggers` block,
finds the first stream handler, and — when `config['handler'] == 'syslog'` —
reads `config['syslog']['facility']`: a name found in `facility_names`
attaches a `SysLogHandler` at `config['syslog']['address']` and (outside
debug mode) removes the stream handler found earlier; an unknown name only
logs `'%s:Invalid facility, syslog logging aborted' % application_name()`.
Returns the caller's mutated config alongside the logging state. -/
def setup_logging (progName : String) (config : Config) (debug : Bool) :
    Except PyErr (Config × LoggingState) :=
  match effective_config config debug with
  | Except.error e => Except.error e
  | Except.ok c =>
    let st0 := basicConfig c
    let lvl : Nat :=
      match aLookup c "level" with
      | some (CVal.num n) => n
      | _ => NOTSET
    let st1 := set_logging_level_for_loggers st0 (aLookup c "loggers") lvl
    let streamH := findStreamHandler st1.rootHandlers
    match aLookup c "handler" with
    | none => Except.ok (c, st1)
    | some hv =>
      if hv = CVal.str "syslog" then
        match aLookup c "syslog" with
        | some (CVal.dict sysBlock) =>
          match aLookup sysBlock "facility" with
          | some fac =>
            match aLookup facility_names fac with
            | some facNum =>
              match aLookup sysBlock "address" with
              | some addr =>
                let st2 :=
                  { st1 with rootHandlers := st1.rootHandlers ++ [Handler.syslog addr facNum] }
                let st3 :=
                  match streamH with
                  | some sh =>
                    if ¬ debug then
                      { st2 with rootHandlers := removeHandlerOnce st2.rootHandlers sh }
                    else st2
                  | none => st2
                Except.ok (c, st3)
              | none => Except.error (PyErr.keyError "address")
            | none =>
              Except.ok (c, { st1 with
                log := st1.log ++
                  [⟨LogLevel.error, progName ++ ":Invalid facility, syslog logging aborted"⟩] })
          | none => Except.error (PyErr.keyError "facility")
        | some _ => Except.error (PyErr.typeError "string indices must be integers")
        | none => Except.error (PyErr.keyError "syslog")
      else Except.ok (c, st1)

/-! ## Concrete fixtures used by witnesses and counterexamples -/

/-- A host with a user database holding one entry, `deploy` with uid 500,
where `os.seteuid(500)` would succeed. -/
def envDeploy : DaemonEnv :=
  { supportsPwd := true, pwdDb := [("deploy", 500)], argv0 := "/usr/bin/rejected",
    childPid := 101, grandchildPid := 102, euid := 0, allowedEuids := [500],
    fs0 := [], owners0 := [] }

/-- Like `envDeploy` but the process may not change its effective uid
(`os.seteuid` raises `OSError` for every target). -/
def envNoSwitch : DaemonEnv :=
  { supportsPwd := true, pwdDb := [("deploy", 500)], argv0 := "/usr/bin/rejected",
    childPid := 101, grandchildPid := 102, euid := 0, allowedEuids := [],
    fs0 := [], owners0 := [] }

/-- A host whose platform has no `pwd` module (`_SUPPORTS_PWD = False`). -/
def envNoPwd : DaemonEnv :=
  { supportsPwd := false, pwdDb := [], argv0 := "/usr/bin/rejected",
    childPid := 101, grandchildPid := 102, euid := 0, allowedEuids := [],
    fs0 := [], owners0 := [] }

/-- The grandchild outcome of `daemonize` on `envDeploy` with no pid-file
path and no user. -/
def outDeployNoUser : DaemonOutcome :=
  { fs := [("/tmp/rejected-102.pid", "102\n")], owners := [],
    cwd := "/", umask := 0, sessionLeader := true, streamsToDevNull := true,
    euid := 0, log := [], returned := true }

/-! ## Claim theorems -/

/-- Claim C2: delivering SIGTERM while no shutdown callback is registered
neither raises nor invokes anything: the handler returns normally with an
empty action list, and the state is unchanged apart from the two log
records (the delivery line and the no-handler line). -/
theorem signal_handler_sigterm_without_callback {α : Type} (st : SignalState α) (frame : Nat)
    (h : st.shutdownSlot = none) :
    signal_handler st SIGTERM frame =
      Except.ok
        ({ st with log := st.log ++
            [⟨LogLevel.info, "Signal received: SIGTERM, frame " ++ Nat.repr frame⟩,
             ⟨LogLevel.info, "No valid signal handler defined: SIGTERM"⟩] }, []) := by
  simp [signal_handler, SIGNALS, aLookup, SIGTERM, SIGHUP, SIGUSR1, h]

/-- Witness for C2 at the module-load state and frame 0. -/
theorem signal_handler_sigterm_without_callback_witness :
    initialSignalState.shutdownSlot = none ∧
    signal_handler initialSignalState SIGTERM 0 =
      Except.ok
        ({ initialSignalState with log := initialSignalState.log ++
            [⟨LogLevel.info, "Signal received: SIGTERM, frame " ++ Nat.repr 0⟩,
             ⟨LogLevel.info, "No valid signal handler defined: SIGTERM"⟩] }, []) :=
  ⟨rfl, signal_handler_sigterm_without_callback initialSignalState 0 rfl⟩

/-- Claim C3: registering shutdown callbacks A then B leaves exactly B in
the slot, and a subsequent SIGTERM delivery invokes B only — A is never
among the invoked actions. -/
theorem shutdown_handler_last_writer_wins {α : Type} (st : SignalState α) (A B : α)
    (hAB : A ≠ B) :
    (shutdown_handler (shutdown_handler st A) B).shutdownSlot = some B ∧
    ∀ (frame : Nat) (st2 : SignalState α) (acts : List (HandlerAction α)),
      signal_handler (shutdown_handler (shutdown_handler st A) B) SIGTERM frame =
        Except.ok (st2, acts) →
      acts = [HandlerAction.callShutdown B] ∧ HandlerAction.callShutdown A ∉ acts := by
  refine ⟨rfl, ?_⟩
  intro frame st2 acts h
  simp only [signal_handler, shutdown_handler, SIGNALS, SIGTERM, aLookup] at h
  have hacts : acts = [HandlerAction.callShutdown B] := by
    cases h
    rfl
  subst hacts
  exact ⟨rfl, by simp [hAB]⟩

/-- Witness for C3 with Nat-coded callbacks 1 (A) and 2 (B) from the
module-load state. -/
theorem shutdown_handler_last_writer_wins_witness :
    (1 : Nat) ≠ 2 ∧
    ((shutdown_handler (shutdown_handler initialSignalState 1) 2).shutdownSlot = some 2 ∧
     ∀ (frame : Nat) (st2 : SignalState Nat) (acts : List (HandlerAction Nat)),
       signal_handler (shutdown_handler (shutdown_handler initialSignalState 1) 2) SIGTERM
           frame = Except.ok (st2, acts) →
       acts = [HandlerAction.callShutdown 2] ∧ HandlerAction.callShutdown 1 ∉ acts) :=
  ⟨by decide, shutdown_handler_last_writer_wins initialSignalState 1 2 (by decide)⟩

/-- Claim C6 (code bug): a delivered signal outside the registered set —
here SIGINT, which is not a key of `_SIGNALS` — is not logged and dropped:
the handler's very first statement evaluates `_SIGNALS[signum]` and raises
`KeyError`, so the error propagates out of the handler instead of being a
logged no-op. -/
theorem signal_handler_unregistered_signal_raises :
    aLookup SIGNALS SIGINT = none ∧
    signal_handler initialSignalState SIGINT 0 = Except.error (PyErr.keyError "2") := by
  decide

/-- Inversion helper: whenever `daemonize` returns in the grandchild, the
filesystem holds exactly the pid file the intermediate process wrote — the
resolved path bound to the grandchild pid rendered in decimal plus a
newline. -/
theorem daemonize_ok_fs (env : DaemonEnv) (pidfile user : Option String) (out : DaemonOutcome)
    (hok : daemonize env pidfile user = Except.ok out) :
    out.fs = aInsert env.fs0 (resolved_pidfile_path env pidfile)
      (Nat.repr env.grandchildPid ++ "\n") := by
  simp only [daemonize] at hok
  split at hok
  · exact (Except.noConfusion hok)
  · cases hok
    rfl

/-- Claim C1: when `daemonize` returns in the surviving grandchild, the pid
file at the resolved path (caller-supplied, or the `/tmp` default) holds the
grandchild's decimal pid followed by a newline — and, the decimal renderings
being distinct, never the intermediate (first child) pid. -/
theorem daemonize_writes_grandchild_pidfile (env : DaemonEnv) (pidfile user : Option String)
    (out : DaemonOutcome) (hok : daemonize env pidfile user = Except.ok out)
    (hne : Nat.repr env.grandchildPid ≠ Nat.repr env.childPid) :
    aLookup out.fs (resolved_pidfile_path env pidfile) =
      some (Nat.repr env.grandchildPid ++ "\n") ∧
    aLookup out.fs (resolved_pidfile_path env pidfile) ≠
      some (Nat.repr env.childPid ++ "\n") := by
  have hfs := daemonize_ok_fs env pidfile user out hok
  refine ⟨by rw [hfs]; exact aLookup_aInsert_self _ _ _, ?_⟩
  rw [hfs, aLookup_aInsert_self]
  intro hcontra
  apply hne
  have h2 : Nat.repr env.grandchildPid ++ "\n" = Nat.repr env.childPid ++ "\n" :=
    Option.some.inj hcontra
  have h3 := congrArg String.data h2
  simp only [String.data_append] at h3
  exact String.ext ((List.append_left_inj _).mp h3)

/-- Witness for C1 on `envDeploy` with no pid-file path and no user. -/
theorem daemonize_writes_grandchild_pidfile_witness :
    daemonize envDeploy none none = Except.ok outDeployNoUser ∧
    Nat.repr envDeploy.grandchildPid ≠ Nat.repr envDeploy.childPid ∧
    (aLookup outDeployNoUser.fs (resolved_pidfile_path envDeploy none) =
        some (Nat.repr envDeploy.grandchildPid ++ "\n") ∧
     aLookup outDeployNoUser.fs (resolved_pidfile_path envDeploy none) ≠
        some (Nat.repr envDeploy.childPid ++ "\n")) :=
  ⟨by decide, by decide,
   daemonize_writes_grandchild_pidfile envDeploy none none outDeployNoUser (by decide)
     (by decide)⟩

/-- Claim C4: `daemonize` with a run-as-user name the user database does not
know fails before any fork with the user-lookup error (`pwd.getpwnam`
raises `KeyError`), so the caller never reaches a half-detached state — no
outcome is produced at all. -/
theorem daemonize_unknown_user_aborts (env : DaemonEnv) (pidfile : Option String) (u : String)
    (hpwd : env.supportsPwd = true) (hu : u ≠ "") (hmiss : aLookup env.pwdDb u = none) :
    daemonize env pidfile (some u) =
      Except.error (PyErr.keyError ("getpwnam(): name not found: " ++ u)) := by
  simp [daemonize, userTruthy, hpwd, hu, hmiss]

/-- Witness for C4: the name `ghost` is not in `envDeploy`'s user database. -/
theorem daemonize_unknown_user_aborts_witness :
    envDeploy.supportsPwd = true ∧ "ghost" ≠ "" ∧
    aLookup envDeploy.pwdDb "ghost" = none ∧
    daemonize envDeploy none (some "ghost") =
      Except.error (PyErr.keyError ("getpwnam(): name not found: " ++ "ghost")) :=
  ⟨rfl, by decide, by decide,
   daemonize_unknown_user_aborts envDeploy none "ghost" rfl (by decide) (by decide)⟩

/-- Claim C5: the effective-uid switch runs only when a uid was resolved and
differs from the current effective uid (when they agree nothing is switched
or logged beyond the user-request line), and when the switch itself fails
(`os.seteuid` refuses the target) `daemonize` still returns `True` with the
original effective uid, the failure only logged at error level. -/
theorem daemonize_euid_switch_best_effort (env : DaemonEnv) (pidfile : Option String)
    (u : String) (uid : Nat)
    (hpwd : env.supportsPwd = true) (hu : u ≠ "") (hfound : aLookup env.pwdDb u = some uid) :
    ∃ out, daemonize env pidfile (some u) = Except.ok out ∧
      (((uid : Int) = env.euid → out.euid = env.euid ∧
          out.log = [⟨LogLevel.info, "Changing the running user to " ++ u⟩]) ∧
       ((uid : Int) ≠ env.euid → (uid : Int) ∉ env.allowedEuids →
          out.euid = env.euid ∧
          (⟨LogLevel.error, "Could not set the user"⟩ : LogEntry) ∈ out.log ∧
          out.returned = true) ∧
       ((uid : Int) ≠ env.euid → (uid : Int) ∈ env.allowedEuids →
          out.euid = (uid : Int))) := by
  have hgt : (-1 : Int) < (uid : Int) := by omega
  have hex : ∃ out, daemonize env pidfile (some u) = Except.ok out := by
    simp [daemonize, userTruthy, hpwd, hu, hfound]
  obtain ⟨out, hout⟩ := hex
  have hshape := hout
  simp [daemonize, userTruthy, hpwd, hu, hfound] at hshape
  subst hshape
  refine ⟨_, hout, ?_, ?_, ?_⟩
  · intro h1
    simp [h1]
  · intro h1 h2
    simp [hgt, h1, h2]
  · intro h1 h2
    simp [hgt, h1, h2]

/-- Witness for C5 on `envNoSwitch`, where the resolved uid 500 differs
from the current effective uid 0 and `os.seteuid(500)` fails. -/
theorem daemonize_euid_switch_best_effort_witness :
    envNoSwitch.supportsPwd = true ∧ "deploy" ≠ "" ∧
    aLookup envNoSwitch.pwdDb "deploy" = some 500 ∧
    (∃ out, daemonize envNoSwitch none (some "deploy") = Except.ok out ∧
      (((500 : Int) = envNoSwitch.euid → out.euid = envNoSwitch.euid ∧
          out.log = [⟨LogLevel.info, "Changing the running user to " ++ "deploy"⟩]) ∧
       ((500 : Int) ≠ envNoSwitch.euid → (500 : Int) ∉ envNoSwitch.allowedEuids →
          out.euid = envNoSwitch.euid ∧
          (⟨LogLevel.error, "Could not set the user"⟩ : LogEntry) ∈ out.log ∧
          out.returned = true) ∧
       ((500 : Int) ≠ envNoSwitch.euid → (500 : Int) ∈ envNoSwitch.allowedEuids →
          out.euid = (500 : Int)))) :=
  ⟨rfl, by decide, by decide,
   daemonize_euid_switch_best_effort envNoSwitch none "deploy" 500 rfl (by decide) (by decide)⟩

/-- Claim C9 counterexample: on a platform without `pwd`, `daemonize` with a
run-as-user does not fail or surface anything: it returns the detached
grandchild outcome with the effective uid untouched and only the
informational "Changing the running user" line logged — the request is
silently ignored, not treated as unsupported. -/
theorem daemonize_no_pwd_silently_succeeds :
    daemonize envNoPwd none (some "somebody") =
      Except.ok
        { fs := [("/tmp/rejected-102.pid", "102\n")], owners := [],
          cwd := "/", umask := 0, sessionLeader := true, streamsToDevNull := true,
          euid := 0,
          log := [⟨LogLevel.info, "Changing the running user to somebody"⟩],
          returned := true } := by
  decide

/-- Claim C9 as amended: whenever the platform lacks `pwd`, `daemonize`
skips uid resolution entirely — it succeeds, leaves the effective uid
unchanged, and logs nothing above info level. -/
theorem daemonize_no_pwd_ignores_user (env : DaemonEnv) (pidfile user : Option String)
    (h : env.supportsPwd = false) :
    ∃ out, daemonize env pidfile user = Except.ok out ∧ out.euid = env.euid ∧
      ∀ e ∈ out.log, e.lvl = LogLevel.info := by
  simp only [daemonize, h, Bool.false_and, Bool.false_eq_true, if_false, gt_iff_lt,
    lt_self_iff_false, false_and, ite_false]
  refine ⟨_, rfl, rfl, ?_⟩
  by_cases hu : userTruthy user <;> simp [hu]

/-- Witness for C9 (amended) on `envNoPwd` with a user request present. -/
theorem daemonize_no_pwd_ignores_user_witness :
    envNoPwd.supportsPwd = false ∧
    (∃ out, daemonize envNoPwd none (some "somebody") = Except.ok out ∧
      out.euid = envNoPwd.euid ∧ ∀ e ∈ out.log, e.lvl = LogLevel.info) :=
  ⟨rfl, daemonize_no_pwd_ignores_user envNoPwd none (some "somebody") rfl⟩

/-- The logging configuration of the debug-override scenario. -/
def debugOverrideConfig : Config :=
  [("level", CVal.str "warning"), ("filename", CVal.str "/var/log/app.log"),
   ("format", CVal.str "%(message)s")]

/-- Claim C7: with `debug` set, the caller's config loses its `filename`
entry and its level becomes the debug level — the effective configuration
handed to `basicConfig` carries `LEVELS['debug'] = 10` and no `filename`
key, so the backend is built on a plain stream handler at debug level. -/
theorem setup_logging_debug_override :
    setup_logging "app" debugOverrideConfig true =
      Except.ok ([("level", CVal.num 10), ("format", CVal.str "%(message)s")],
        { rootHandlers := [Handler.stream], rootLevel := 10, loggerLevels := [],
          formatUsed := "%(message)s", log := [] }) ∧
    aLookup LEVELS "debug" = some 10 ∧
    aLookup [("level", CVal.num 10), ("format", CVal.str "%(message)s")] "filename" = none := by
  decide

/-- The syslog configuration of the facility-validation scenario, exactly as
the claim states it (no `level` entry). -/
def syslogBadFacilityConfig : Config :=
  [("handler", CVal.str "syslog"),
   ("syslog", CVal.dict [("address", "/dev/log"), ("facility", "not-a-real-facility")])]

/-- Claim C8 counterexample: on the claim's exact configuration the builder
never reaches the facility check — `setup_logging` reads `config['level']`
unconditionally and that key is absent, so the call raises `KeyError`
instead of logging the invalid facility and keeping the stream handler. -/
theorem setup_logging_syslog_missing_level_raises :
    setup_logging "app" syslogBadFacilityConfig false =
      Except.error (PyErr.keyError "level") := by
  decide

/-- The facility-validation configuration completed with a `level` entry. -/
def syslogBadFacilityConfigWithLevel : Config :=
  ("level", CVal.str "info") :: syslogBadFacilityConfig

/-- Claim C8 as amended: once the configuration also carries a `level`
entry, the unknown facility name makes the builder log one error record —
`'%s:Invalid facility, syslog logging aborted' % application_name()`, which
does not quote the facility string itself — attach no syslog handler, and
leave the default stream handler as the only root handler. -/
theorem setup_logging_syslog_invalid_facility :
    setup_logging "app" syslogBadFacilityConfigWithLevel false =
      Except.ok (("level", CVal.num 20) :: syslogBadFacilityConfig,
        { rootHandlers := [Handler.stream], rootLevel := 20, loggerLevels := [],
          formatUsed := BASIC_FORMAT,
          log := [⟨LogLevel.error, "app:Invalid facility, syslog logging aborted"⟩] }) ∧
    aLookup facility_names "not-a-real-facility" = none := by
  decide

/-- Claim C10: `setup_logging` mutates the caller's mapping in place. The
mapping the caller holds afterwards (`effective_config`, threaded unchanged
through the rest of `setup_logging`) always carries `level` rebound to the
numeric constant — the debug level under `debug`, otherwise the table value
of the previous entry, `NOTSET` for an unrecognized one — has no `filename`
entry left when `debug` was set, and agrees with the original mapping on
every other key. -/
theorem setup_logging_mutates_caller_config (config : Config) (debug : Bool) (v : CVal)
    (hlvl : aLookup config "level" = some v) :
    ∃ c, effective_config config debug = Except.ok c ∧
      aLookup c "level" =
        some (CVal.num (levelsGet (if debug then CVal.str "debug" else v))) ∧
      (debug = true → aLookup c "filename" = none) ∧
      (∀ k, k ≠ "level" → k ≠ "filename" → aLookup c k = aLookup config k) ∧
      (∀ s, aLookup LEVELS s = none → levelsGet (CVal.str s) = NOTSET) ∧
      (∀ progName c2 st, setup_logging progName config debug = Except.ok (c2, st) → c2 = c) := by
  cases debug with
  | false =>
    refine ⟨aInsert config "level" (CVal.num (levelsGet v)),
      by simp [effective_config, hlvl], ?_, ?_, ?_, ?_, ?_⟩
    · simp [aLookup_aInsert_self]
    · intro h
      exact absurd h (by simp)
    · intro k hk _
      exact aLookup_aInsert_ne config "level" k _ hk
    · intro s hs
      simp [levelsGet, hs]
    · intro progName c2 st h
      simp only [setup_logging] at h
      rw [show effective_config config false =
          Except.ok (aInsert config "level" (CVal.num (levelsGet v))) from
          by simp [effective_config, hlvl]] at h
      repeat' split at h
      all_goals simp_all
  | true =>
    have hfile :
        aLookup (aInsert config "level" (CVal.str "debug")) "filename" =
          aLookup config "filename" :=
      aLookup_aInsert_ne config "level" "filename" _ (by decide)
    by_cases hf : (aLookup config "filename").isSome
    · have heff : effective_config config true =
          Except.ok (aInsert (aErase (aInsert config "level" (CVal.str "debug")) "filename")
            "level" (CVal.num (levelsGet (CVal.str "debug")))) := by
        simp [effective_config, hfile, hf,
          aLookup_aErase_ne _ "filename" "level" (by decide),
          aLookup_aInsert_self]
      refine ⟨_, heff, ?_, ?_, ?_, ?_, ?_⟩
      · simp [aLookup_aInsert_self]
      · intro _
        rw [aLookup_aInsert_ne _ "level" "filename" _ (by decide), aLookup_aErase_self]
      · intro k hk hk2
        rw [aLookup_aInsert_ne _ "level" k _ hk, aLookup_aErase_ne _ "filename" k hk2,
          aLookup_aInsert_ne _ "level" k _ hk]
      · intro s hs
        simp [levelsGet, hs]
      · intro progName c2 st h
        simp only [setup_logging] at h
        rw [heff] at h
        repeat' split at h
        all_goals simp_all
    · have heff : effective_config config true =
          Except.ok (aInsert (aInsert config "level" (CVal.str "debug"))
            "level" (CVal.num (levelsGet (CVal.str "debug")))) := by
        simp [effective_config, hfile, hf, aLookup_aInsert_self]
      refine ⟨_, heff, ?_, ?_, ?_, ?_, ?_⟩
      · simp [aLookup_aInsert_self]
      · intro _
        rw [aLookup_aInsert_ne _ "level" "filename" _ (by decide), hfile]
        exact Option.not_isSome_iff_eq_none.mp hf
      · intro k hk hk2
        rw [aLookup_aInsert_ne _ "level" k _ hk, aLookup_aInsert_ne _ "level" k _ hk]
      · intro s hs
        simp [levelsGet, hs]
      · intro progName c2 st h
        simp only [setup_logging] at h
        rw [heff] at h
        repeat' split at h
        all_goals simp_all

/-- Witness for C10 on the debug-override configuration (level `warning`, a
`filename` entry, `debug` set). -/
theorem setup_logging_mutates_caller_config_witness :
    aLookup debugOverrideConfig "level" = some (CVal.str "warning") ∧
    (∃ c, effective_config debugOverrideConfig true = Except.ok c ∧
      aLookup c "level" =
        some (CVal.num (levelsGet (if true then CVal.str "debug" else CVal.str "warning"))) ∧
      ((true : Bool) = true → aLookup c "filename" = none) ∧
      (∀ k, k ≠ "level" → k ≠ "filename" → aLookup c k = aLookup debugOverrideConfig k) ∧
      (∀ s, aLookup LEVELS s = none → levelsGet (CVal.str s) = NOTSET) ∧
      (∀ progName c2 st, setup_logging progName debugOverrideConfig true = Except.ok (c2, st) →
        c2 = c)) :=
  ⟨by decide,
   setup_logging_mutates_caller_config debugOverrideConfig true (CVal.str "warning") (by decide)⟩

end Rejected
